import Mathlib

/-!
# AgriShield — verification of the chat exchange core

Shallow embedding of the AgriShield repository's core: the backend prompt
composer and `POST /api/chat` handler (`server.js`) and the chat client's
send/resolve logic (`src/components/chat/ChatWindow.tsx`).

Modelling conventions:
* JavaScript numbers carried in the `{lat, lon}` location object are modelled
  as `Int` (the claims under study depend only on truthiness — zero/missing is
  falsy — and on the decimal rendering, both of which `Int` captures for
  integer-valued coordinates).
* A missing (`undefined`) field is `Option.none`; JS truthiness of a number is
  "present and nonzero", truthiness of a string is "nonempty".
* `new Date(s)` is modelled by an ISO-8601 parser returning `none` for an
  invalid date; `toLocaleDateString('en-US', ...)` on an invalid date yields
  the literal `"Invalid Date"`, as in the JS runtime. The host timezone is
  taken to be UTC.
* The asynchronous client handler `handleSendMessage` is split into its
  synchronous prefix (`sendStart`, up to and including issuing the request)
  and its resolution suffix (`sendResolve`, the `then/catch/finally` part).
-/

namespace AgriShield

/-! ## Server: `server.js` — locations -/

/-- The `{lat, lon}` object sent by the client; either field may be absent. -/
structure JsLocation where
  lat : Option Int
  lon : Option Int
  deriving Repr, DecidableEq

/-- JS truthiness of a possibly-missing number: `undefined` and `0` are falsy. -/
def jsNumTruthy : Option Int → Bool
  | none => false
  | some n => n != 0

/-- Template rendering of a possibly-missing number (`undefined` prints as such). -/
def renderNum : Option Int → String
  | none => "undefined"
  | some n => toString n

/-! ## Server: `new Date(...)` / `toLocaleDateString` model -/

/-- A valid JS date (calendar part only; the handler formats no time fields). -/
structure JsDate where
  year : Nat
  month : Nat
  day : Nat
  deriving Repr, DecidableEq

def isLeap (y : Nat) : Bool :=
  y % 4 == 0 && (y % 100 != 0 || y % 400 == 0)

def daysInMonth (y : Nat) (m : Nat) : Nat :=
  if m == 2 then (if isLeap y then 29 else 28)
  else if m == 4 || m == 6 || m == 9 || m == 11 then 30
  else 31

/-- Split a character list at every occurrence of the separator `c`. -/
def splitOnChar (c : Char) : List Char → List (List Char)
  | [] => [[]]
  | x :: xs =>
    if x = c then [] :: splitOnChar c xs
    else
      match splitOnChar c xs with
      | [] => [[x]]
      | h :: t => (x :: h) :: t

def allDigits (l : List Char) : Bool := l.all Char.isDigit

/-- Numeric value of a digit string. -/
def digitsVal (l : List Char) : Nat :=
  l.foldl (fun a c => 10 * a + (c.toNat - 48)) 0

/-- Exactly two digits whose value is `< bound`. -/
def twoDigitsLt (l : List Char) (bound : Nat) : Bool :=
  l.length == 2 && allDigits l && digitsVal l < bound

/-- Validity of the time-of-day part of an ISO string:
`HH:MM`, `HH:MM:SS` or `HH:MM:SS.f+`, optionally suffixed by `Z`. -/
def validTimeChars (t : List Char) : Bool :=
  let core := if t.getLast? == some 'Z' then t.dropLast else t
  match splitOnChar ':' core with
  | [h, m] => twoDigitsLt h 24 && twoDigitsLt m 60
  | [h, m, s] =>
    (match splitOnChar '.' s with
     | [ss] => twoDigitsLt h 24 && twoDigitsLt m 60 && twoDigitsLt ss 60
     | [ss, f] => twoDigitsLt h 24 && twoDigitsLt m 60 && twoDigitsLt ss 60 &&
         f.length > 0 && allDigits f
     | _ => false)
  | _ => false

/-- `new Date(s)` for the ISO-8601 shapes the client produces
(`YYYY-MM-DD` optionally followed by `THH:MM[:SS[.fff]][Z]`);
returns `none` (an Invalid Date) for anything else. -/
def jsNewDate (s : String) : Option JsDate :=
  let l := s.data
  let dpart := l.take 10
  let rest := l.drop 10
  let timeOk := rest.isEmpty ||
    (match rest with
     | 'T' :: tr => validTimeChars tr
     | _ => false)
  if !timeOk then none else
  match splitOnChar '-' dpart with
  | [ys, ms, ds] =>
    if ys.length == 4 && allDigits ys &&
       ms.length == 2 && allDigits ms &&
       ds.length == 2 && allDigits ds then
      let y := digitsVal ys
      let mo := digitsVal ms
      let d := digitsVal ds
      if 1 ≤ mo && mo ≤ 12 && 1 ≤ d && d ≤ daysInMonth y mo then
        some ⟨y, mo, d⟩
      else none
    else none
  | _ => none

def weekdayNames : List String :=
  ["Saturday", "Sunday", "Monday", "Tuesday", "Wednesday", "Thursday", "Friday"]

def monthNames : List String :=
  ["January", "February", "March", "April", "May", "June", "July",
   "August", "September", "October", "November", "December"]

/-- Day of week by Zeller's congruence; index into `weekdayNames` (0 = Saturday). -/
def zeller (d : JsDate) : Nat :=
  let m := if d.month ≤ 2 then d.month + 12 else d.month
  let y := if d.month ≤ 2 then d.year - 1 else d.year
  let K := y % 100
  let J := y / 100
  (d.day + (13 * (m + 1)) / 5 + K + K / 4 + J / 4 + 5 * J) % 7

/-- `date.toLocaleDateString('en-US', \x7b weekday: 'long', year: 'numeric',
month: 'long', day: 'numeric' \x7d)`, with an Invalid Date rendering as the
string `"Invalid Date"`. -/
def jsToLocaleDateStringLong : Option JsDate → String
  | none => "Invalid Date"
  | some d =>
    weekdayNames.getD (zeller d) "" ++ ", " ++
      monthNames.getD (d.month - 1) "" ++ " " ++ toString d.day ++ ", " ++ toString d.year

/-! ## Server: `createSystemPrompt` -/

/-- The `formattedDate` expression of `createSystemPrompt`:
`date ? new Date(date).toLocaleDateString(...) : 'Not available'`.
The `date` request field is absent (`none`) or a string; the empty string is
falsy in JS, so it also takes the `'Not available'` branch. -/
def formattedDate (date : Option String) : String :=
  match date with
  | none => "Not available"
  | some d => if d == "" then "Not available" else jsToLocaleDateStringLong (jsNewDate d)

/-- The `locationInfo` variable of `createSystemPrompt`: the guarded template
line when `location && location.lat && location.lon` is truthy, otherwise the
default text. -/
def locationInfo (loc : Option JsLocation) : String :=
  match loc with
  | none => "User's location is not available."
  | some l =>
    if jsNumTruthy l.lat && jsNumTruthy l.lon then
      "User's Approximate Location (Latitude, Longitude): " ++
        renderNum l.lat ++ ", " ++ renderNum l.lon
    else
      "User's location is not available."

/-- Template text before the interpolated `formattedDate`. -/
def promptHeader : String :=
  "\n    You are the \"AgriShield AI Farming Assistant,\" a specialized AI expert for Indian farmers. Your persona is confident, knowledgeable, and highly practical.\n\n    --- IMPORTANT CONTEXT (FOR YOUR USE ONLY) ---\n    Current Date: "

/-- Template text between the interpolated `formattedDate` and `locationInfo`. -/
def promptMid : String := "\n    "

/-- Template text after the interpolated `locationInfo`. -/
def promptTail : String :=
  "\n    You MUST use this location and date to provide highly relevant, localized, and timely advice.\n    ---\n\n    --- RESPONSE MANDATES ---\n    1.  **PRIVACY RULE:** You MUST NOT repeat the user's latitude and longitude coordinates in your response. Refer to their location in general terms only (e.g., \"in your area,\" \"for your region,\" \"given your local conditions\").\n    2.  **Be Specific and Actionable:** When asked for a recommendation, you MUST provide a list of specific, named crop varieties first. Do NOT give generic advice.\n    3.  **Expert First, Disclaimer Second:** Provide your expert recommendations directly. Only after giving specific advice can you add a concluding sentence suggesting the user consult a local extension office.\n    4.  **Use Clear Formatting:** Always use bullet points (*) for lists and bold text (**) for important terms.\n    5.  **Be Proactive:** End your responses by asking a follow-up question to encourage further interaction.\n    ---\n     \n    --- CRITICAL LANGUAGE RULE ---\n    You must respond ONLY in the language the user has selected. Do not mix languages.\n  "

/-- `createSystemPrompt(location, date)` of `server.js`. -/
def createSystemPrompt (loc : Option JsLocation) (date : Option String) : String :=
  promptHeader ++ formattedDate date ++ promptMid ++ locationInfo loc ++ promptTail

/-! ## Server: `POST /api/chat` handler -/

/-- One role-tagged entry of the message array sent upstream. -/
structure ChatMsg where
  role : String
  content : String
  deriving Repr, DecidableEq

/-- The `messages` array assembled by the `/api/chat` handler. -/
def buildMessages (message language : String) (loc : Option JsLocation)
    (date : Option String) : List ChatMsg :=
  [ ⟨"system", createSystemPrompt loc date⟩,
    ⟨"user", "I am an Indian Farmer. My preferred language is: " ++ language ++ "."⟩,
    ⟨"assistant", "Namaste! I am ready to help you in " ++ language ++ "."⟩,
    ⟨"user", message⟩ ]

/-- The upstream completion's `message` object; `content` may be JSON null. -/
structure CompletionMessage where
  content : Option String
  deriving Repr, DecidableEq

/-- One entry of `completion.choices`; the `message` field may be absent. -/
structure CompletionChoice where
  message : Option CompletionMessage
  deriving Repr, DecidableEq

/-- The upstream completion object. -/
structure Completion where
  choices : List CompletionChoice
  deriving Repr, DecidableEq

/-- Outcome of awaiting `groq.chat.completions.create`: a completion, or a
thrown error carrying `error.message`. -/
inductive UpstreamResult where
  | ok : Completion → UpstreamResult
  | thrown : String → UpstreamResult
  deriving Repr, DecidableEq

/-- Body of the HTTP response: `res.json({response})` or
`res.status(500).json({error, details})`. -/
inductive ResponseBody where
  | success : String → ResponseBody
  | failure : (error : String) → (details : String) → ResponseBody
  deriving Repr, DecidableEq

structure HttpResponse where
  status : Nat
  body : ResponseBody
  deriving Repr, DecidableEq

/-- The parsed request body `{message, language, location, date}`. -/
structure ChatRequestBody where
  message : String
  language : String
  location : Option JsLocation
  date : Option String
  deriving Repr, DecidableEq

/-- `completion.choices[0]?.message?.content || "No response generated"`:
optional chaining collapses a missing choice, message or content to
`undefined`, and `||` replaces any falsy value (including the empty string)
by the default text. -/
def extractText (c : Completion) : String :=
  let content? : Option String :=
    match c.choices.head? with
    | some ch =>
      (match ch.message with
       | some m => m.content
       | none => none)
    | none => none
  match content? with
  | some s => if s == "" then "No response generated" else s
  | none => "No response generated"

/-- The `/api/chat` handler: assemble the messages, call upstream, and reply
`200 {response}` on success or `500 {error, details}` when the call throws.
It is a total function of the request and the upstream outcome: no outcome
escapes the `try/catch`, i.e. the process does not crash. -/
def handleChat (req : ChatRequestBody) (upstream : List ChatMsg → UpstreamResult) :
    HttpResponse :=
  let messages := buildMessages req.message req.language req.location req.date
  match upstream messages with
  | .ok c => ⟨200, .success (extractText c)⟩
  | .thrown m => ⟨500, .failure "Failed to get response from AI" m⟩

/-- `t` occurs in `s` as a (contiguous) substring. -/
def ContainsSubstr (s t : String) : Prop :=
  ∃ p q : String, s = p ++ t ++ q

/-! ## Client: `ChatWindow.tsx` -/

/-- A staged attachment: the selected `File` (its name and binary bytes) and
its classification. The data-URL preview is derived from `content` and plays
no role in the send path, so it is not modelled separately. -/
structure AttachedFile where
  name : String
  content : List Nat
  isImage : Bool
  deriving Repr, DecidableEq

/-- A transcript entry. -/
structure Message where
  id : String
  text : String
  isBot : Bool
  timestamp : Nat
  attachments : Option (List AttachedFile)
  deriving Repr, DecidableEq

/-- The component state touched by the send path: `messages`, `inputValue`,
`isTyping` and `attachedFiles`. -/
structure ChatState where
  messages : List Message
  inputValue : String
  isTyping : Bool
  attachedFiles : List AttachedFile
  deriving Repr, DecidableEq

/-- ASCII whitespace as trimmed by JS `String.prototype.trim`. -/
def isJsWhitespace (c : Char) : Bool :=
  c == ' ' || c == '\t' || c == '\n' || c == '\r' || c == '\x0b' || c == '\x0c'

/-- JS `text.trim()`. -/
def jsTrim (s : String) : String :=
  ⟨((s.data.dropWhile isJsWhitespace).reverse.dropWhile isJsWhitespace).reverse⟩

/-- The canned bot turn rendered when the exchange fails. -/
def fallbackText : String :=
  "I'm having trouble connecting to the satellite. Please check your internet connection."

/-- Ambient values read inside `handleSendMessage`: the selected `language`,
the `location` prop, `new Date().toISOString()` and `Date.now()` (the latter
also used to mint message ids). -/
structure SendContext where
  language : String
  location : Option JsLocation
  dateISO : String
  now : Nat
  deriving Repr, DecidableEq

/-- The JSON body of the `fetch('http://localhost:3001/api/chat', ...)` call.
By construction it has exactly these four fields; in particular no field
carries attachment bytes. -/
structure OutboundRequest where
  message : String
  language : String
  location : Option JsLocation
  date : String
  deriving Repr, DecidableEq

/-- `array.join(', ')` on the attachment names. -/
def joinComma : List String → String
  | [] => ""
  | [n] => n
  | n :: ns => n ++ ", " ++ joinComma ns

/-- The synchronous prefix of `handleSendMessage(text)`: the emptiness guard,
the optimistic append of the user `Message`, the clearing of the input and
attachment staging, setting `isTyping`, the `messageText` assembly, and the
issued request (`none` when the guard returns early). -/
def sendStart (s : ChatState) (text : String) (ctx : SendContext) :
    ChatState × Option OutboundRequest :=
  if jsTrim text == "" && s.attachedFiles.isEmpty then (s, none)
  else
    let userMessage : Message :=
      ⟨toString ctx.now, jsTrim text, false, ctx.now,
        if s.attachedFiles.length > 0 then some s.attachedFiles else none⟩
    let s1 : ChatState := ⟨s.messages ++ [userMessage], "", true, []⟩
    let t := jsTrim text
    let messageText :=
      if s.attachedFiles.length > 0 then
        let fileNames := joinComma (s.attachedFiles.map AttachedFile.name)
        if t == "" then "[Attached files: " ++ fileNames ++ "]"
        else t ++ "\n[Attached files: " ++ fileNames ++ "]"
      else t
    (s1, some ⟨messageText, ctx.language, ctx.location, ctx.dateISO⟩)

/-- Resolution of the exchange (`then`/`catch`/`finally`): `some t` is a
successful response carrying text `t` (`apiResponse.ok` and a parsed body);
`none` is any failure (network error or non-success status). One bot turn is
appended and `isTyping` is cleared. -/
def sendResolve (s : ChatState) (outcome : Option String) (now : Nat) : ChatState :=
  match outcome with
  | some t =>
    ⟨s.messages ++ [⟨toString now ++ "-bot", t, true, now, none⟩],
      s.inputValue, false, s.attachedFiles⟩
  | none =>
    ⟨s.messages ++ [⟨toString now ++ "-error", fallbackText, true, now, none⟩],
      s.inputValue, false, s.attachedFiles⟩

/-- The `disabled` expression of the send `Button`:
`(!inputValue.trim() && attachedFiles.length === 0) || isTyping`. -/
def sendButtonDisabled (s : ChatState) : Bool :=
  (jsTrim s.inputValue == "" && s.attachedFiles.isEmpty) || s.isTyping

/-- Clicking the send button: a disabled button fires no handler; otherwise
`handleSendMessage(inputValue)` runs. -/
def sendButtonClick (s : ChatState) (ctx : SendContext) :
    ChatState × Option OutboundRequest :=
  if sendButtonDisabled s then (s, none) else sendStart s s.inputValue ctx

structure KeyEvent where
  key : String
  shiftKey : Bool
  deriving Repr, DecidableEq

/-- The `onKeyDown` handler of the `Input`: on Enter without Shift it calls
`handleSendMessage(inputValue)` unconditionally (no `isTyping` check). -/
def inputKeyDown (s : ChatState) (e : KeyEvent) (ctx : SendContext) :
    ChatState × Option OutboundRequest :=
  if e.key == "Enter" && !e.shiftKey then sendStart s s.inputValue ctx else (s, none)

/-- Replace an attachment's binary content by nothing, keeping its name. -/
def eraseContent (f : AttachedFile) : AttachedFile :=
  ⟨f.name, [], f.isImage⟩

theorem name_comp_eraseContent : AttachedFile.name ∘ eraseContent = AttachedFile.name :=
  rfl

/-! ## Claims about the server -/

/-- C4: for every request, the message list passed to the upstream model call
has exactly 4 entries in the fixed order system / user (language declaration) /
assistant (acknowledgment) / user (actual message), with the specified
contents, and no prior conversation turns. -/
theorem messages_fixed_four_scaffold (req : ChatRequestBody) :
    buildMessages req.message req.language req.location req.date =
      [⟨"system", createSystemPrompt req.location req.date⟩,
       ⟨"user", "I am an Indian Farmer. My preferred language is: " ++ req.language ++ "."⟩,
       ⟨"assistant", "Namaste! I am ready to help you in " ++ req.language ++ "."⟩,
       ⟨"user", req.message⟩] ∧
    (buildMessages req.message req.language req.location req.date).length = 4 ∧
    (buildMessages req.message req.language req.location req.date).map ChatMsg.role =
      ["system", "user", "assistant", "user"] :=
  ⟨rfl, rfl, rfl⟩

/-- C3: whenever the upstream call throws an error with message `m`, the
endpoint responds with status 500 and body
`{error: "Failed to get response from AI", details: m}`; `handleChat` being a
total function, no outcome escapes the handler (the process does not crash). -/
theorem upstream_error_yields_500 (req : ChatRequestBody)
    (upstream : List ChatMsg → UpstreamResult) (m : String)
    (h : upstream (buildMessages req.message req.language req.location req.date) =
      .thrown m) :
    handleChat req upstream = ⟨500, .failure "Failed to get response from AI" m⟩ := by
  simp [handleChat, h]

/-- Witness for C3 at the spec's example: the upstream call throws
`Error("quota exceeded")`. -/
theorem upstream_error_yields_500_witness :
    ((fun _ : List ChatMsg => UpstreamResult.thrown "quota exceeded")
        (buildMessages "hi" "English" none none) =
      UpstreamResult.thrown "quota exceeded") ∧
    handleChat ⟨"hi", "English", none, none⟩ (fun _ => .thrown "quota exceeded") =
      ⟨500, .failure "Failed to get response from AI" "quota exceeded"⟩ :=
  ⟨rfl, upstream_error_yields_500 ⟨"hi", "English", none, none⟩ _ _ rfl⟩

/-- C10: when the upstream call succeeds but yields no choices, a missing
message, or null/empty content, the endpoint responds 200 with
`{response: "No response generated"}`. -/
theorem empty_completion_yields_200 (req : ChatRequestBody)
    (upstream : List ChatMsg → UpstreamResult) (c : Completion)
    (h1 : upstream (buildMessages req.message req.language req.location req.date) =
      .ok c)
    (h2 : c.choices = [] ∨ ∃ ch rest, c.choices = ch :: rest ∧
      (ch.message = none ∨ ∃ m, ch.message = some m ∧
        (m.content = none ∨ m.content = some ""))) :
    handleChat req upstream = ⟨200, .success "No response generated"⟩ := by
  have hext : extractText c = "No response generated" := by
    rcases h2 with h | ⟨ch, rest, hc, h | ⟨m, hm, h | h⟩⟩
    · simp [extractText, h]
    · simp [extractText, hc, h]
    · simp [extractText, hc, hm, h]
    · simp [extractText, hc, hm, h]
  simp [handleChat, h1, hext]

/-- Witness for C10: an upstream success with an empty `choices` array. -/
theorem empty_completion_yields_200_witness :
    ((fun _ : List ChatMsg => UpstreamResult.ok ⟨[]⟩)
        (buildMessages "hi" "Hindi" none none) = UpstreamResult.ok ⟨[]⟩) ∧
    (Completion.mk [] |>.choices) = [] ∧
    handleChat ⟨"hi", "Hindi", none, none⟩ (fun _ => .ok ⟨[]⟩) =
      ⟨200, .success "No response generated"⟩ :=
  ⟨rfl, rfl,
    empty_completion_yields_200 ⟨"hi", "Hindi", none, none⟩ _ ⟨[]⟩ rfl (Or.inl rfl)⟩

/-- C5 counterexample: the non-null, unparseable date string `"not-a-date"`
renders as `"Invalid Date"`, not `"Not available"` — `date ? ... : 'Not
available'` only tests truthiness, so an unparseable non-empty string reaches
`toLocaleDateString` on an Invalid Date. -/
theorem unparseable_date_renders_invalid_cex :
    formattedDate (some "not-a-date") = "Invalid Date" ∧
    formattedDate (some "not-a-date") ≠ "Not available" := by
  decide

/-- C5 (amended): an absent or empty date renders as `"Not available"`; a
non-empty unparseable date renders as `"Invalid Date"`; a valid ISO-8601 date
renders in the long en-US calendar form, e.g. `"2024-06-01T00:00:00Z"` as
`"Saturday, June 1, 2024"`. -/
theorem date_field_rendering (date : Option String) :
    (date = none ∨ date = some "" → formattedDate date = "Not available") ∧
    (∀ d, date = some d → d ≠ "" → jsNewDate d = none →
      formattedDate date = "Invalid Date") ∧
    (∀ d jd, date = some d → d ≠ "" → jsNewDate d = some jd →
      formattedDate date = weekdayNames.getD (zeller jd) "" ++ ", " ++
        monthNames.getD (jd.month - 1) "" ++ " " ++ toString jd.day ++ ", " ++
        toString jd.year) ∧
    formattedDate (some "2024-06-01T00:00:00Z") = "Saturday, June 1, 2024" := by
  refine ⟨?_, ?_, ?_, by decide⟩
  · rintro (rfl | rfl) <;> rfl
  · rintro d rfl hne hparse
    simp [formattedDate, hne, hparse, jsToLocaleDateStringLong]
  · rintro d jd rfl hne hparse
    simp [formattedDate, hne, hparse, jsToLocaleDateStringLong]

/-- Witness for C5 (amended): an absent date and the unparseable
`"2024-13-01"` (month 13). -/
theorem date_field_rendering_witness :
    formattedDate none = "Not available" ∧
    formattedDate (some "2024-13-01") = "Invalid Date" :=
  ⟨(date_field_rendering none).1 (Or.inl rfl),
   (date_field_rendering (some "2024-13-01")).2.1 "2024-13-01" rfl (by decide)
     (by decide)⟩

/-- C6: a null location, or one missing a coordinate, renders as
`"User's location is not available."`; a location with both coordinates
present and truthy renders as the labeled coordinate line. -/
theorem location_field_rendering (loc : Option JsLocation) :
    (loc = none ∨ (∃ l, loc = some l ∧ (l.lat = none ∨ l.lon = none)) →
      locationInfo loc = "User's location is not available.") ∧
    (∀ l, loc = some l → jsNumTruthy l.lat = true → jsNumTruthy l.lon = true →
      locationInfo loc = "User's Approximate Location (Latitude, Longitude): " ++
        renderNum l.lat ++ ", " ++ renderNum l.lon) := by
  constructor
  · rintro (rfl | ⟨l, rfl, h | h⟩)
    · rfl
    · simp [locationInfo, jsNumTruthy, h]
    · simp [locationInfo, jsNumTruthy, h]
  · rintro l rfl h1 h2
    simp [locationInfo, h1, h2]

/-- Witness for C6: a null location, and the location `(12, 77)`. -/
theorem location_field_rendering_witness :
    locationInfo none = "User's location is not available." ∧
    locationInfo (some ⟨some 12, some 77⟩) =
      "User's Approximate Location (Latitude, Longitude): " ++
        renderNum (some 12) ++ ", " ++ renderNum (some 77) :=
  ⟨(location_field_rendering none).1 (Or.inl rfl),
   (location_field_rendering (some ⟨some 12, some 77⟩)).2 ⟨some 12, some 77⟩ rfl
     (by decide) (by decide)⟩

/-- C1 counterexample: at location `(12, 77)` the composed system prompt does
contain the decimal rendering `"12"` of the latitude as a substring — the
template interpolates the raw coordinates into the context section. -/
theorem prompt_contains_latitude_cex :
    ContainsSubstr (createSystemPrompt (some ⟨some 12, some 77⟩) none) "12" :=
  ⟨promptHeader ++ "Not available" ++ promptMid ++
     "User's Approximate Location (Latitude, Longitude): ",
   ", " ++ "77" ++ promptTail, by
    have hloc : locationInfo (some ⟨some 12, some 77⟩) =
        "User's Approximate Location (Latitude, Longitude): " ++ "12" ++ ", " ++
          "77" := by
      decide
    simp [createSystemPrompt, formattedDate, hloc, String.append_assoc]
    rw [show ("User's Approximate Location (Latitude, Longitude): 12, 77" : String) =
        "User's Approximate Location (Latitude, Longitude): 12" ++ ", 77" by decide]
    rw [String.append_assoc]⟩

/-- C1 (amended): for every present location (both coordinates truthy) and
every date, the composed system prompt does contain the decimal renderings of
the latitude and of the longitude — they are interpolated into the
"FOR YOUR USE ONLY" context section; the privacy rule is instead an
instruction in the prompt telling the model not to repeat them. -/
theorem prompt_embeds_coordinates (lat lon : Int) (date : Option String)
    (hlat : lat ≠ 0) (hlon : lon ≠ 0) :
    ContainsSubstr (createSystemPrompt (some ⟨some lat, some lon⟩) date)
      (toString lat) ∧
    ContainsSubstr (createSystemPrompt (some ⟨some lat, some lon⟩) date)
      (toString lon) := by
  have hloc : locationInfo (some ⟨some lat, some lon⟩) =
      "User's Approximate Location (Latitude, Longitude): " ++ toString lat ++
        ", " ++ toString lon := by
    simp [locationInfo, jsNumTruthy, renderNum, hlat, hlon]
  constructor
  · exact ⟨promptHeader ++ formattedDate date ++ promptMid ++
      "User's Approximate Location (Latitude, Longitude): ",
      ", " ++ toString lon ++ promptTail,
      by simp [createSystemPrompt, hloc, String.append_assoc]⟩
  · exact ⟨promptHeader ++ formattedDate date ++ promptMid ++
      "User's Approximate Location (Latitude, Longitude): " ++ toString lat ++ ", ",
      promptTail,
      by simp [createSystemPrompt, hloc, String.append_assoc]⟩

/-- Witness for C1 (amended) at location `(12, 77)` and an absent date. -/
theorem prompt_embeds_coordinates_witness :
    (12 : Int) ≠ 0 ∧ (77 : Int) ≠ 0 ∧
    (ContainsSubstr (createSystemPrompt (some ⟨some 12, some 77⟩) none)
       (toString (12 : Int)) ∧
     ContainsSubstr (createSystemPrompt (some ⟨some 12, some 77⟩) none)
       (toString (77 : Int))) :=
  ⟨by decide, by decide, prompt_embeds_coordinates 12 77 none (by decide) (by decide)⟩

/-! ## Claims about the client -/

/-- C8: with whitespace-only text and no staged attachments, the send action
is a no-op: the state (transcript, input, staging, composing indicator) is
returned unchanged and no request is issued. -/
theorem empty_send_is_noop (s : ChatState) (text : String) (ctx : SendContext)
    (h1 : jsTrim text = "") (h2 : s.attachedFiles = []) :
    sendStart s text ctx = (s, none) := by
  simp [sendStart, h1, h2]

/-- Witness for C8: whitespace-only text and an empty staging list. -/
theorem empty_send_is_noop_witness :
    jsTrim "   " = "" ∧ (ChatState.mk [] "x" false []).attachedFiles = [] ∧
    sendStart ⟨[], "x", false, []⟩ "   " ⟨"English", none, "2024-06-01", 1⟩ =
      (⟨[], "x", false, []⟩, none) :=
  ⟨by decide, rfl,
    empty_send_is_noop ⟨[], "x", false, []⟩ "   " ⟨"English", none, "2024-06-01", 1⟩
      (by decide) rfl⟩

/-- C7: a send with non-empty trimmed text or at least one attachment issues a
request, appends exactly one user message synchronously, and after resolution
(success or failure) the transcript is the old one followed by exactly the
user turn and one bot turn: length grows by exactly 2 and the user turn is
never retracted. -/
theorem send_appends_exactly_two (s : ChatState) (text : String)
    (ctx : SendContext) (outcome : Option String) (n2 : Nat)
    (h : jsTrim text ≠ "" ∨ s.attachedFiles ≠ []) :
    (sendStart s text ctx).2.isSome = true ∧
    (sendStart s text ctx).1.messages.length = s.messages.length + 1 ∧
    (sendResolve (sendStart s text ctx).1 outcome n2).messages.length =
      s.messages.length + 2 ∧
    (sendResolve (sendStart s text ctx).1 outcome n2).messages.take
      s.messages.length = s.messages ∧
    ((sendResolve (sendStart s text ctx).1 outcome n2).messages.drop
      s.messages.length).map Message.isBot = [false, true] := by
  have hguard : (jsTrim text == "" && s.attachedFiles.isEmpty) = false := by
    rcases h with h | h <;> simp [h]
  rcases outcome with _ | t <;>
    simp [sendStart, sendResolve, hguard, List.append_assoc, List.take_left,
      List.drop_left]

/-- Witness for C7: text `"hi"`, no attachments, successful resolution. -/
theorem send_appends_exactly_two_witness :
    (jsTrim "hi" ≠ "" ∨ (ChatState.mk [] "" false []).attachedFiles ≠ []) ∧
    ((sendStart ⟨[], "", false, []⟩ "hi" ⟨"English", none, "2024-06-01", 3⟩).2.isSome
        = true ∧
     (sendStart ⟨[], "", false, []⟩ "hi"
        ⟨"English", none, "2024-06-01", 3⟩).1.messages.length =
       (ChatState.mk [] "" false []).messages.length + 1 ∧
     (sendResolve (sendStart ⟨[], "", false, []⟩ "hi"
        ⟨"English", none, "2024-06-01", 3⟩).1 (some "ok") 4).messages.length =
       (ChatState.mk [] "" false []).messages.length + 2 ∧
     (sendResolve (sendStart ⟨[], "", false, []⟩ "hi"
        ⟨"English", none, "2024-06-01", 3⟩).1 (some "ok") 4).messages.take
       (ChatState.mk [] "" false []).messages.length =
       (ChatState.mk [] "" false []).messages ∧
     ((sendResolve (sendStart ⟨[], "", false, []⟩ "hi"
        ⟨"English", none, "2024-06-01", 3⟩).1 (some "ok") 4).messages.drop
       (ChatState.mk [] "" false []).messages.length).map Message.isBot =
       [false, true]) :=
  ⟨Or.inl (by decide),
    send_appends_exactly_two ⟨[], "", false, []⟩ "hi" ⟨"English", none, "2024-06-01", 3⟩
      (some "ok") 4 (Or.inl (by decide))⟩

/-- C9: with at least one staged attachment, the outbound message field is the
trimmed text followed by the bracketed name list (just the bracketed list when
the trimmed text is empty), and the request is unchanged when every
attachment's binary content is erased — no attachment bytes reach the body. -/
theorem attachment_names_in_outbound_message (s : ChatState) (text : String)
    (ctx : SendContext) (f : AttachedFile) (fs : List AttachedFile)
    (h : s.attachedFiles = f :: fs) :
    (sendStart s text ctx).2 = some
      ⟨(if jsTrim text = "" then
          "[Attached files: " ++ joinComma ((f :: fs).map AttachedFile.name) ++ "]"
        else
          jsTrim text ++ "\n[Attached files: " ++
            joinComma ((f :: fs).map AttachedFile.name) ++ "]"),
        ctx.language, ctx.location, ctx.dateISO⟩ ∧
    (sendStart s text ctx).2 =
      (sendStart ⟨s.messages, s.inputValue, s.isTyping,
        s.attachedFiles.map eraseContent⟩ text ctx).2 := by
  by_cases ht : jsTrim text = "" <;>
    simp [sendStart, h, ht, eraseContent, name_comp_eraseContent]

/-- Witness for C9: one staged image `"leaf.jpg"` with bytes `[10, 20]` and
text `" check "`. -/
theorem attachment_names_in_outbound_message_witness :
    (ChatState.mk [] "" false [⟨"leaf.jpg", [10, 20], true⟩]).attachedFiles =
      [⟨"leaf.jpg", [10, 20], true⟩] ∧
    ((sendStart ⟨[], "", false, [⟨"leaf.jpg", [10, 20], true⟩]⟩ " check "
        ⟨"English", none, "2024-06-01", 5⟩).2 = some
      ⟨(if jsTrim " check " = "" then
          "[Attached files: " ++
            joinComma ([(⟨"leaf.jpg", [10, 20], true⟩ : AttachedFile)].map
              AttachedFile.name) ++ "]"
        else
          jsTrim " check " ++ "\n[Attached files: " ++
            joinComma ([(⟨"leaf.jpg", [10, 20], true⟩ : AttachedFile)].map
              AttachedFile.name) ++ "]"),
        "English", none, "2024-06-01"⟩ ∧
     (sendStart ⟨[], "", false, [⟨"leaf.jpg", [10, 20], true⟩]⟩ " check "
        ⟨"English", none, "2024-06-01", 5⟩).2 =
       (sendStart ⟨[], "", false,
          [(⟨"leaf.jpg", [10, 20], true⟩ : AttachedFile)].map eraseContent⟩
         " check " ⟨"English", none, "2024-06-01", 5⟩).2) :=
  ⟨rfl,
    attachment_names_in_outbound_message
      ⟨[], "", false, [⟨"leaf.jpg", [10, 20], true⟩]⟩ " check "
      ⟨"English", none, "2024-06-01", 5⟩ ⟨"leaf.jpg", [10, 20], true⟩ [] rfl⟩

/-- C2 (code bug): while a request is in flight (`isTyping = true`) with
non-empty input `"hello"`, the Enter key handler still issues a second
outbound request and appends a second user message — `onKeyDown` calls
`handleSendMessage` without checking `isTyping` — even though the send button
path correctly no-ops in the same state. -/
theorem enter_key_sends_while_typing :
    (ChatState.mk [] "hello" true []).isTyping = true ∧
    (inputKeyDown ⟨[], "hello", true, []⟩ ⟨"Enter", false⟩
      ⟨"English", none, "2024-06-01", 9⟩).2.isSome = true ∧
    (inputKeyDown ⟨[], "hello", true, []⟩ ⟨"Enter", false⟩
      ⟨"English", none, "2024-06-01", 9⟩).1.messages.map Message.isBot = [false] ∧
    sendButtonClick ⟨[], "hello", true, []⟩ ⟨"English", none, "2024-06-01", 9⟩ =
      (⟨[], "hello", true, []⟩, none) := by
  decide

end AgriShield
